import Mathlib

/-!
Verification of the milestone-closer triage logic.

The development shallowly embeds the `MilestoneProcessor` class
(its fields, the recursive `processMilestones` loop, and the two
mutators `closeMilestone` / `openMilestone`) together with the
argument validation of `main.ts`.  External I/O is made explicit:
the paginated milestone source becomes a function `Nat → List Milestone`,
and every state-changing call to the external tracker is recorded in a
`calls` trace inside the processor state.
-/

namespace MilestoneCloser

/-- The `Label` interface. -/
structure Label where
  name : String
deriving Repr, DecidableEq

/-- The `Issue` interface (read-only; the processor never constructs one). -/
structure Issue where
  title : String
  number : Nat
  updated_at : String
  labels : List Label
  state : String
  locked : Bool
deriving Repr, DecidableEq

/-- The `Milestone` interface. -/
structure Milestone where
  id : Nat
  title : String
  number : Nat
  updated_at : String
  description : String
  open_issues : Nat
  closed_issues : Nat
  state : String
deriving Repr, DecidableEq

/-- The `MilestoneProcessorOptions` interface (the `repoToken` credential is
an opaque collaborator-owned value with no bearing on the logic). -/
structure MilestoneProcessorOptions where
  minimumIssues : Nat
  relatedOnly : Bool
  relatedActive : Bool
  reopenActive : Bool
  debugOnly : Bool
deriving Repr, DecidableEq

/-- One `issues.updateMilestone` call issued to the external tracker:
the milestone number and the requested state. -/
structure UpdateMilestoneCall where
  milestone_number : Nat
  state : String
deriving Repr, DecidableEq

/-- The mutable run state of a `MilestoneProcessor`, plus the trace `calls`
of state-changing calls issued at the external boundary. -/
structure ProcState where
  operationsLeft : Int
  relatedNotFound : Bool
  staleIssues : List Issue
  closedIssues : List Issue
  closedMilestones : List Milestone
  reopenedMilestones : List Milestone
  calls : List UpdateMilestoneCall
deriving Repr, DecidableEq

/-- The `OPERATIONS_PER_RUN` constant. -/
def OPERATIONS_PER_RUN : Int := 100

/-- The state a freshly constructed `MilestoneProcessor` starts in:
the budget is the full `OPERATIONS_PER_RUN`, `relatedNotFound` is false,
all accumulation lists are empty, and no external call has been made. -/
def initState : ProcState :=
  { operationsLeft := OPERATIONS_PER_RUN
    relatedNotFound := false
    staleIssues := []
    closedIssues := []
    closedMilestones := []
    reopenedMilestones := []
    calls := [] }

/-- The `openMilestone` mutator: record the milestone in
`reopenedMilestones`; under `debugOnly` return before the external call,
otherwise issue an update-state-to-open call. -/
def openMilestone (opts : MilestoneProcessorOptions) (m : Milestone)
    (s : ProcState) : ProcState :=
  let s1 := { s with reopenedMilestones := s.reopenedMilestones ++ [m] }
  if opts.debugOnly then s1
  else { s1 with calls := s1.calls ++ [⟨m.number, "open"⟩] }

/-- The `closeMilestone` mutator: record the milestone in
`closedMilestones`; under `debugOnly` return before the external call,
otherwise issue an update-state-to-closed call. -/
def closeMilestone (opts : MilestoneProcessorOptions) (m : Milestone)
    (s : ProcState) : ProcState :=
  let s1 := { s with closedMilestones := s.closedMilestones ++ [m] }
  if opts.debugOnly then s1
  else { s1 with calls := s1.calls ++ [⟨m.number, "closed"⟩] }

/-- The body of the per-milestone `for` loop of `processMilestones`:
reopen check first, then the minimum-issues skip, the open-issues skip,
and finally the close action for open milestones. -/
def triageMilestone (opts : MilestoneProcessorOptions) (s : ProcState)
    (m : Milestone) : ProcState :=
  if m.state = "closed" ∧ opts.reopenActive = true ∧ m.open_issues > 0 then
    openMilestone opts m s
  else if m.open_issues + m.closed_issues < opts.minimumIssues then
    s
  else if m.state = "open" ∧ m.open_issues > 0 then
    s
  else if m.state = "open" then
    closeMilestone opts m s
  else
    s

/-- The whole `for (const milestone of milestones.values())` loop over
one fetched page. -/
def processPage (opts : MilestoneProcessorOptions) (ms : List Milestone)
    (s : ProcState) : ProcState :=
  ms.foldl (triageMilestone opts) s

/-- The recursive `processMilestones(page)` method of the processor, made
explicit over the milestone source `src` and the current state `s`.
Returns the final state together with the method's return value. -/
def processMilestones (opts : MilestoneProcessorOptions)
    (src : Nat → List Milestone) (s : ProcState) (page : Nat) :
    ProcState × Int :=
  if s.operationsLeft ≤ 0 then
    (s, 0)
  else
    let milestones := src page
    let s1 : ProcState := { s with operationsLeft := s.operationsLeft - 1 }
    if milestones.length ≤ 0 ∧ opts.reopenActive = false then
      (s1, s1.operationsLeft)
    else if (opts.relatedOnly = true ∨ opts.relatedActive = true) ∧
        s1.operationsLeft < OPERATIONS_PER_RUN - 1 ∧
        opts.reopenActive = false then
      (s1, s1.operationsLeft)
    else if (opts.relatedOnly = true ∨ opts.relatedActive = true) ∧
        s1.relatedNotFound = true ∧ opts.reopenActive = false then
      (s1, s1.operationsLeft)
    else
      processMilestones opts src (processPage opts milestones s1) (page + 1)
termination_by s.operationsLeft.toNat
decreasing_by
  have htri : ∀ (t : ProcState) (a : Milestone),
      (triageMilestone opts t a).operationsLeft = t.operationsLeft := by
    intro t a
    unfold triageMilestone openMilestone closeMilestone
    dsimp only
    split
    · split <;> rfl
    · split
      · rfl
      · split
        · rfl
        · split
          · split <;> rfl
          · rfl
  have hop : ∀ (ms : List Milestone) (t : ProcState),
      (processPage opts ms t).operationsLeft = t.operationsLeft := by
    intro ms
    induction ms with
    | nil => intro t; rfl
    | cons a rest ih =>
        intro t
        unfold processPage at ih ⊢
        rw [List.foldl_cons, ih, htri]
  rw [hop]
  dsimp only
  omega

/-- The list of pages actually fetched from the milestone source by a run
of `processMilestones`: an observer with exactly the guard structure of
`processMilestones`, used to account for the operations budget. -/
def fetchesOf (opts : MilestoneProcessorOptions)
    (src : Nat → List Milestone) (s : ProcState) (page : Nat) :
    List Nat :=
  if s.operationsLeft ≤ 0 then
    []
  else
    let milestones := src page
    let s1 : ProcState := { s with operationsLeft := s.operationsLeft - 1 }
    if milestones.length ≤ 0 ∧ opts.reopenActive = false then
      [page]
    else if (opts.relatedOnly = true ∨ opts.relatedActive = true) ∧
        s1.operationsLeft < OPERATIONS_PER_RUN - 1 ∧
        opts.reopenActive = false then
      [page]
    else if (opts.relatedOnly = true ∨ opts.relatedActive = true) ∧
        s1.relatedNotFound = true ∧ opts.reopenActive = false then
      [page]
    else
      page :: fetchesOf opts src (processPage opts milestones s1) (page + 1)
termination_by s.operationsLeft.toNat
decreasing_by
  have htri : ∀ (t : ProcState) (a : Milestone),
      (triageMilestone opts t a).operationsLeft = t.operationsLeft := by
    intro t a
    unfold triageMilestone openMilestone closeMilestone
    dsimp only
    split
    · split <;> rfl
    · split
      · rfl
      · split
        · rfl
        · split
          · split <;> rfl
          · rfl
  have hop : ∀ (ms : List Milestone) (t : ProcState),
      (processPage opts ms t).operationsLeft = t.operationsLeft := by
    intro ms
    induction ms with
    | nil => intro t; rfl
    | cons a rest ih =>
        intro t
        unfold processPage at ih ⊢
        rw [List.foldl_cons, ih, htri]
  rw [hop]
  dsimp only
  omega

/-- Relation between the state `s` a stretch of processing started in and
the state `r` it ended in, saying closed milestones were never mutated:
nothing was reopened, everything newly recorded as closed had state
`open`, and every external call issued was an update-state-to-closed call
for one of those open milestones. -/
def ClosedUntouched (s r : ProcState) : Prop :=
  r.reopenedMilestones = s.reopenedMilestones ∧
  ∃ t : List Milestone,
    r.closedMilestones = s.closedMilestones ++ t ∧
    (∀ m ∈ t, m.state = "open") ∧
    ∃ tc : List UpdateMilestoneCall,
      r.calls = s.calls ++ tc ∧
      ∀ c ∈ tc, c.state = "closed" ∧ ∃ m ∈ t, m.number = c.milestone_number

/-- A JavaScript number as far as the `min-issues` validation is
concerned: `none` models a non-finite value (NaN or an infinity, on which
`Number.isInteger` is false and `< 0` comparison is false or irrelevant
to validation), `some q` a finite value. -/
abbrev JsNumber : Type := Option ℚ

/-- The `Number.isInteger` test of the validation. -/
def jsIsInteger : JsNumber → Bool
  | none => false
  | some q => q.den == 1

/-- The `args.minIssues < 0` test of the validation (false on NaN). -/
def jsLtZero : JsNumber → Bool
  | none => false
  | some q => decide (q < 0)

/-- The argument record built by `getAndValidateArgs` in `main.ts`. -/
structure Args where
  repoToken : String
  debugOnly : Bool
  minIssues : JsNumber
deriving DecidableEq

/-- The `getAndValidateArgs` function of `main.ts`: build the argument
record and throw unless `minIssues` is a non-negative integer. -/
def getAndValidateArgs (repoToken : String) (debugOnly : Bool)
    (minIssues : JsNumber) : Except String Args :=
  let args : Args := ⟨repoToken, debugOnly, minIssues⟩
  if ¬ jsIsInteger args.minIssues = true ∨ jsLtZero args.minIssues = true then
    Except.error "not a valid value for the min-issues input, choose a non-negative integer."
  else
    Except.ok args

/-- The validated `minIssues` value as a natural number (exact whenever
validation succeeded, since the value is then a non-negative integer). -/
def minIssuesNat (v : JsNumber) : Nat :=
  ((Option.getD v 0).num).toNat

/-- The `run` function of `main.ts`: validate the arguments and, only on
success, construct a processor in its initial state and invoke
`processMilestones` from page 1.  A validation failure aborts before any
fetch: the error is returned and `processMilestones` is never entered.
The option flags `main.ts` does not set are false. -/
def runMain (repoToken : String) (debugOnly : Bool) (minIssues : JsNumber)
    (src : Nat → List Milestone) : Except String (ProcState × Int) :=
  match getAndValidateArgs repoToken debugOnly minIssues with
  | Except.error e => Except.error e
  | Except.ok args =>
      Except.ok (processMilestones
        { minimumIssues := minIssuesNat args.minIssues
          relatedOnly := false
          relatedActive := false
          reopenActive := false
          debugOnly := args.debugOnly }
        src initState 1)

/-- Sample milestone used to exhibit the reopen / minimum-issues
precedence: closed, one open issue, total below any sizeable minimum. -/
def smallClosedMilestone : Milestone :=
  { id := 1, title := "v1", number := 8, updated_at := "2020-01-01",
    description := "", open_issues := 1, closed_issues := 0,
    state := "closed" }

/-- Sample options with `reopenActive` set and a minimum of 5 issues. -/
def reopenOpts : MilestoneProcessorOptions :=
  { minimumIssues := 5, relatedOnly := false, relatedActive := false,
    reopenActive := true, debugOnly := false }

/-- Sample milestone eligible for closing: open, no open issues, 4 issues
total. -/
def staleOpenMilestone : Milestone :=
  { id := 2, title := "v2", number := 5, updated_at := "2020-01-01",
    description := "", open_issues := 0, closed_issues := 4,
    state := "open" }

/-- Sample options with every flag off and a minimum of 3 issues. -/
def plainOpts : MilestoneProcessorOptions :=
  { minimumIssues := 3, relatedOnly := false, relatedActive := false,
    reopenActive := false, debugOnly := false }

/-- Sample options for debug mode: like `plainOpts` but `debugOnly`. -/
def debugOpts : MilestoneProcessorOptions :=
  { minimumIssues := 3, relatedOnly := false, relatedActive := false,
    reopenActive := false, debugOnly := true }

/-- Sample options for related mode: `relatedOnly` set, nothing else. -/
def relatedOpts : MilestoneProcessorOptions :=
  { minimumIssues := 3, relatedOnly := true, relatedActive := false,
    reopenActive := false, debugOnly := false }

/-- Sample one-page milestone source: `staleOpenMilestone` on page 1,
nothing afterwards. -/
def onePageSrc : Nat → List Milestone :=
  fun page => if page = 1 then [staleOpenMilestone] else []

end MilestoneCloser

namespace MilestoneCloser

theorem openMilestone_eq (opts : MilestoneProcessorOptions) (m : Milestone)
    (s : ProcState) :
    openMilestone opts m s =
      { s with reopenedMilestones := s.reopenedMilestones ++ [m],
               calls := s.calls ++
                 if opts.debugOnly = true then [] else [⟨m.number, "open"⟩] } := by
  by_cases h : opts.debugOnly = true <;> simp [openMilestone, h]

theorem closeMilestone_eq (opts : MilestoneProcessorOptions) (m : Milestone)
    (s : ProcState) :
    closeMilestone opts m s =
      { s with closedMilestones := s.closedMilestones ++ [m],
               calls := s.calls ++
                 if opts.debugOnly = true then [] else [⟨m.number, "closed"⟩] } := by
  by_cases h : opts.debugOnly = true <;> simp [closeMilestone, h]

theorem triageMilestone_frame (opts : MilestoneProcessorOptions)
    (s : ProcState) (m : Milestone) :
    (triageMilestone opts s m).operationsLeft = s.operationsLeft ∧
    (triageMilestone opts s m).relatedNotFound = s.relatedNotFound ∧
    (triageMilestone opts s m).staleIssues = s.staleIssues ∧
    (triageMilestone opts s m).closedIssues = s.closedIssues := by
  unfold triageMilestone openMilestone closeMilestone
  dsimp only
  repeat' split
  all_goals exact ⟨rfl, rfl, rfl, rfl⟩

theorem processPage_rel (opts : MilestoneProcessorOptions)
    (R : ProcState → ProcState → Prop)
    (hrefl : ∀ s, R s s)
    (htrans : ∀ a b c, R a b → R b c → R a c)
    (hstep : ∀ s m, R s (triageMilestone opts s m)) :
    ∀ (ms : List Milestone) (s : ProcState), R s (processPage opts ms s) := by
  intro ms
  induction ms with
  | nil => intro s; exact hrefl s
  | cons a rest ih =>
      intro s
      unfold processPage at ih ⊢
      rw [List.foldl_cons]
      exact htrans _ _ _ (hstep s a) (ih (triageMilestone opts s a))

theorem processMilestones_rel (opts : MilestoneProcessorOptions)
    (src : Nat → List Milestone)
    (R : ProcState → ProcState → Prop)
    (hrefl : ∀ s, R s s)
    (htrans : ∀ a b c, R a b → R b c → R a c)
    (hop : ∀ (s : ProcState) (x : Int), R s { s with operationsLeft := x })
    (hstep : ∀ s m, R s (triageMilestone opts s m)) :
    ∀ (s : ProcState) (page : Nat),
      R s ((processMilestones opts src s page).1) := by
  intro s page
  induction s, page using processMilestones.induct opts src with
  | case1 s page h =>
      unfold processMilestones
      rw [if_pos h]
      exact hrefl s
  | case2 s page h1 ms h2 =>
      have h2' : (src page).length ≤ 0 ∧ opts.reopenActive = false := h2
      unfold processMilestones
      rw [if_neg h1, if_pos h2']
      exact hop s _
  | case3 s page h1 ms s1 h2 h3 =>
      have h2' : ¬((src page).length ≤ 0 ∧ opts.reopenActive = false) := h2
      have h3' : (opts.relatedOnly = true ∨ opts.relatedActive = true) ∧
          s.operationsLeft - 1 < OPERATIONS_PER_RUN - 1 ∧
          opts.reopenActive = false := h3
      unfold processMilestones
      rw [if_neg h1, if_neg h2', if_pos h3']
      exact hop s _
  | case4 s page h1 ms s1 h2 h3 h4 =>
      have h2' : ¬((src page).length ≤ 0 ∧ opts.reopenActive = false) := h2
      have h3' : ¬((opts.relatedOnly = true ∨ opts.relatedActive = true) ∧
          s.operationsLeft - 1 < OPERATIONS_PER_RUN - 1 ∧
          opts.reopenActive = false) := h3
      have h4' : (opts.relatedOnly = true ∨ opts.relatedActive = true) ∧
          s.relatedNotFound = true ∧ opts.reopenActive = false := h4
      unfold processMilestones
      rw [if_neg h1, if_neg h2', if_neg h3', if_pos h4']
      exact hop s _
  | case5 s page h1 ms s1 h2 h3 h4 ih =>
      have h2' : ¬((src page).length ≤ 0 ∧ opts.reopenActive = false) := h2
      have h3' : ¬((opts.relatedOnly = true ∨ opts.relatedActive = true) ∧
          s.operationsLeft - 1 < OPERATIONS_PER_RUN - 1 ∧
          opts.reopenActive = false) := h3
      have h4' : ¬((opts.relatedOnly = true ∨ opts.relatedActive = true) ∧
          s.relatedNotFound = true ∧ opts.reopenActive = false) := h4
      unfold processMilestones
      rw [if_neg h1, if_neg h2', if_neg h3', if_neg h4']
      exact htrans _ _ _ (hop s _)
        (htrans _ _ _ (processPage_rel opts R hrefl htrans hstep _ _) ih)

theorem processPage_operationsLeft (opts : MilestoneProcessorOptions)
    (ms : List Milestone) (s : ProcState) :
    (processPage opts ms s).operationsLeft = s.operationsLeft :=
  processPage_rel opts (fun a b => b.operationsLeft = a.operationsLeft)
    (fun _ => rfl) (fun _ _ _ hab hbc => hbc.trans hab)
    (fun s m => (triageMilestone_frame opts s m).1) ms s

theorem processPage_relatedNotFound (opts : MilestoneProcessorOptions)
    (ms : List Milestone) (s : ProcState) :
    (processPage opts ms s).relatedNotFound = s.relatedNotFound :=
  processPage_rel opts (fun a b => b.relatedNotFound = a.relatedNotFound)
    (fun _ => rfl) (fun _ _ _ hab hbc => hbc.trans hab)
    (fun s m => (triageMilestone_frame opts s m).2.1) ms s

end MilestoneCloser

namespace MilestoneCloser

theorem triageMilestone_close_eq (opts : MilestoneProcessorOptions)
    (s : ProcState) (m : Milestone)
    (h1 : m.state = "open") (h2 : m.open_issues = 0)
    (h3 : opts.minimumIssues ≤ m.open_issues + m.closed_issues) :
    triageMilestone opts s m = closeMilestone opts m s := by
  have hA : ¬(m.state = "closed" ∧ opts.reopenActive = true ∧
      m.open_issues > 0) := by
    intro h
    rw [h1] at h
    exact absurd h.1 (by decide)
  have hB : ¬(m.open_issues + m.closed_issues < opts.minimumIssues) :=
    not_lt.mpr h3
  have hC : ¬(m.state = "open" ∧ m.open_issues > 0) := by
    intro h
    exact absurd h.2 (by omega)
  unfold triageMilestone
  rw [if_neg hA, if_neg hB, if_neg hC, if_pos h1]

theorem triageMilestone_closed_mono (opts : MilestoneProcessorOptions)
    (s : ProcState) (m : Milestone) :
    ∀ x, x ∈ s.closedMilestones →
      x ∈ (triageMilestone opts s m).closedMilestones := by
  intro x hx
  unfold triageMilestone openMilestone closeMilestone
  dsimp only
  repeat' split
  all_goals first
    | exact hx
    | exact List.mem_append_left _ hx

theorem processPage_closed_mono (opts : MilestoneProcessorOptions)
    (ms : List Milestone) (s : ProcState) :
    ∀ x, x ∈ s.closedMilestones →
      x ∈ (processPage opts ms s).closedMilestones :=
  processPage_rel opts
    (fun a b => ∀ x, x ∈ a.closedMilestones → x ∈ b.closedMilestones)
    (fun _ _ hx => hx)
    (fun _ _ _ hab hbc x hx => hbc x (hab x hx))
    (fun s m => triageMilestone_closed_mono opts s m) ms s

theorem processPage_closes (opts : MilestoneProcessorOptions) (m : Milestone)
    (h1 : m.state = "open") (h2 : m.open_issues = 0)
    (h3 : opts.minimumIssues ≤ m.open_issues + m.closed_issues) :
    ∀ (ms : List Milestone), m ∈ ms →
      ∀ s, m ∈ (processPage opts ms s).closedMilestones := by
  intro ms
  induction ms with
  | nil => intro hmem; cases hmem
  | cons a rest ih =>
      intro hmem s
      unfold processPage
      rw [List.foldl_cons]
      rcases List.mem_cons.mp hmem with heq | hmem'
      · subst heq
        have hin : m ∈ (triageMilestone opts s m).closedMilestones := by
          rw [triageMilestone_close_eq opts s m h1 h2 h3, closeMilestone_eq]
          simp
        exact processPage_closed_mono opts rest (triageMilestone opts s m)
          m hin
      · exact ih hmem' (triageMilestone opts s a)

/-- C1: a milestone with state `open`, zero open issues and at least
`minimumIssues` total issues is closed by processing: `triageMilestone`
appends it to `closedMilestones` and, unless `debugOnly`, issues exactly
one update-state-to-closed call for its number; and whenever it occurs on
a processed page, it ends up in `closedMilestones`. -/
theorem claim_C1 (opts : MilestoneProcessorOptions) (s : ProcState)
    (m : Milestone)
    (h1 : m.state = "open") (h2 : m.open_issues = 0)
    (h3 : opts.minimumIssues ≤ m.open_issues + m.closed_issues) :
    (triageMilestone opts s m).closedMilestones =
      s.closedMilestones ++ [m] ∧
    (triageMilestone opts s m).calls = s.calls ++
      (if opts.debugOnly = true then [] else [⟨m.number, "closed"⟩]) ∧
    ∀ (ms : List Milestone), m ∈ ms →
      ∀ s0, m ∈ (processPage opts ms s0).closedMilestones := by
  refine ⟨?_, ?_, processPage_closes opts m h1 h2 h3⟩ <;>
    rw [triageMilestone_close_eq opts s m h1 h2 h3, closeMilestone_eq]

/-- Witness for C1 at `plainOpts` and `staleOpenMilestone`. -/
theorem claim_C1_witness :
    (staleOpenMilestone.state = "open" ∧
      staleOpenMilestone.open_issues = 0 ∧
      plainOpts.minimumIssues ≤
        staleOpenMilestone.open_issues + staleOpenMilestone.closed_issues) ∧
    ((triageMilestone plainOpts initState staleOpenMilestone).closedMilestones
        = initState.closedMilestones ++ [staleOpenMilestone] ∧
      (triageMilestone plainOpts initState staleOpenMilestone).calls =
        initState.calls ++ (if plainOpts.debugOnly = true then []
          else [⟨staleOpenMilestone.number, "closed"⟩]) ∧
      ∀ (ms : List Milestone), staleOpenMilestone ∈ ms →
        ∀ s0, staleOpenMilestone ∈
          (processPage plainOpts ms s0).closedMilestones) :=
  ⟨⟨rfl, rfl, by decide⟩,
    claim_C1 plainOpts initState staleOpenMilestone rfl rfl (by decide)⟩

/-- C2 counterexample: with `reopenActive` set, a closed milestone with
one open issue and total issue count 1 < minimumIssues = 5 is *not* left
untouched — it is reopened and an update call is issued, refuting the
claim's "for every setting of the option flags". -/
theorem claim_C2_counterexample :
    smallClosedMilestone.open_issues + smallClosedMilestone.closed_issues <
      reopenOpts.minimumIssues ∧
    triageMilestone reopenOpts initState smallClosedMilestone ≠ initState ∧
    (triageMilestone reopenOpts initState
        smallClosedMilestone).reopenedMilestones = [smallClosedMilestone] ∧
    (triageMilestone reopenOpts initState smallClosedMilestone).calls =
      [⟨8, "open"⟩] := by
  decide

/-- C2 (amended): a milestone whose total issue count is below
`minimumIssues` is left completely untouched, provided the reopen branch
does not apply to it (i.e. unless it is closed, `reopenActive` is set and
it has open issues). -/
theorem claim_C2 (opts : MilestoneProcessorOptions) (s : ProcState)
    (m : Milestone)
    (h1 : m.open_issues + m.closed_issues < opts.minimumIssues)
    (h2 : ¬(m.state = "closed" ∧ opts.reopenActive = true ∧
      m.open_issues > 0)) :
    triageMilestone opts s m = s := by
  unfold triageMilestone
  rw [if_neg h2, if_pos h1]

/-- Witness for C2 (amended) at `plainOpts` and `smallClosedMilestone`. -/
theorem claim_C2_witness :
    (smallClosedMilestone.open_issues + smallClosedMilestone.closed_issues <
        plainOpts.minimumIssues ∧
      ¬(smallClosedMilestone.state = "closed" ∧
        plainOpts.reopenActive = true ∧
        smallClosedMilestone.open_issues > 0)) ∧
    triageMilestone plainOpts initState smallClosedMilestone = initState :=
  ⟨⟨by decide, by decide⟩,
    claim_C2 plainOpts initState smallClosedMilestone (by decide) (by decide)⟩

/-- C3: a closed milestone with open issues is reopened when
`reopenActive` is set — `triageMilestone` equals `openMilestone` there,
appending to `reopenedMilestones` and (unless `debugOnly`) issuing one
update-state-to-open call — with no hypothesis on the total issue count,
so the reopen branch takes precedence over the minimum-issues skip. -/
theorem claim_C3 (opts : MilestoneProcessorOptions) (s : ProcState)
    (m : Milestone)
    (h1 : m.state = "closed") (h2 : opts.reopenActive = true)
    (h3 : m.open_issues > 0) :
    triageMilestone opts s m = openMilestone opts m s ∧
    (triageMilestone opts s m).reopenedMilestones =
      s.reopenedMilestones ++ [m] ∧
    (triageMilestone opts s m).calls = s.calls ++
      (if opts.debugOnly = true then [] else [⟨m.number, "open"⟩]) := by
  have he : triageMilestone opts s m = openMilestone opts m s := by
    unfold triageMilestone
    rw [if_pos ⟨h1, h2, h3⟩]
  refine ⟨he, ?_, ?_⟩ <;> rw [he, openMilestone_eq]

/-- Witness for C3 at `reopenOpts` and `smallClosedMilestone` (whose total
issue count 1 is below the minimum 5). -/
theorem claim_C3_witness :
    (smallClosedMilestone.state = "closed" ∧
      reopenOpts.reopenActive = true ∧
      smallClosedMilestone.open_issues > 0) ∧
    (triageMilestone reopenOpts initState smallClosedMilestone =
        openMilestone reopenOpts smallClosedMilestone initState ∧
      (triageMilestone reopenOpts initState
          smallClosedMilestone).reopenedMilestones =
        initState.reopenedMilestones ++ [smallClosedMilestone] ∧
      (triageMilestone reopenOpts initState smallClosedMilestone).calls =
        initState.calls ++ (if reopenOpts.debugOnly = true then []
          else [⟨smallClosedMilestone.number, "open"⟩])) :=
  ⟨⟨rfl, rfl, by decide⟩,
    claim_C3 reopenOpts initState smallClosedMilestone rfl rfl (by decide)⟩

end MilestoneCloser

namespace MilestoneCloser

theorem closedUntouched_of_eq (s r : ProcState)
    (h1 : r.reopenedMilestones = s.reopenedMilestones)
    (h2 : r.closedMilestones = s.closedMilestones)
    (h3 : r.calls = s.calls) : ClosedUntouched s r :=
  ⟨h1, [], by simp [h2], fun m hm => absurd hm (List.not_mem_nil m),
    [], by simp [h3], fun c hc => absurd hc (List.not_mem_nil c)⟩

theorem closedUntouched_trans (a b c : ProcState)
    (hab : ClosedUntouched a b) (hbc : ClosedUntouched b c) :
    ClosedUntouched a c := by
  obtain ⟨hr1, t1, hc1, ho1, tc1, hk1, hm1⟩ := hab
  obtain ⟨hr2, t2, hc2, ho2, tc2, hk2, hm2⟩ := hbc
  refine ⟨hr2.trans hr1, t1 ++ t2, ?_, ?_, tc1 ++ tc2, ?_, ?_⟩
  · rw [hc2, hc1, List.append_assoc]
  · intro m hm
    rcases List.mem_append.mp hm with h | h
    · exact ho1 m h
    · exact ho2 m h
  · rw [hk2, hk1, List.append_assoc]
  · intro x hx
    rcases List.mem_append.mp hx with h | h
    · obtain ⟨hs, mm, hmm, hnum⟩ := hm1 x h
      exact ⟨hs, mm, List.mem_append_left _ hmm, hnum⟩
    · obtain ⟨hs, mm, hmm, hnum⟩ := hm2 x h
      exact ⟨hs, mm, List.mem_append_right _ hmm, hnum⟩

theorem triageMilestone_closedUntouched (opts : MilestoneProcessorOptions)
    (hr : opts.reopenActive = false) (s : ProcState) (m : Milestone) :
    ClosedUntouched s (triageMilestone opts s m) := by
  have hA : ¬(m.state = "closed" ∧ opts.reopenActive = true ∧
      m.open_issues > 0) := by
    rintro ⟨-, h, -⟩
    rw [hr] at h
    cases h
  unfold triageMilestone
  rw [if_neg hA]
  split
  · exact closedUntouched_of_eq s s rfl rfl rfl
  · split
    · exact closedUntouched_of_eq s s rfl rfl rfl
    · split
      · rename_i hopen
        rw [closeMilestone_eq]
        refine ⟨rfl, [m], rfl, ?_,
          (if opts.debugOnly = true then [] else [⟨m.number, "closed"⟩]),
          rfl, ?_⟩
        · intro x hx
          rw [List.mem_singleton] at hx
          subst hx
          exact hopen
        · intro c hc
          by_cases hd : opts.debugOnly = true
          · rw [if_pos hd] at hc
            exact absurd hc (List.not_mem_nil c)
          · rw [if_neg hd, List.mem_singleton] at hc
            subst hc
            exact ⟨rfl, m, List.mem_singleton_self m, rfl⟩
      · exact closedUntouched_of_eq s s rfl rfl rfl

/-- C4: when `reopenActive` is false, no closed milestone is ever mutated
during a whole run of `processMilestones`: nothing is reopened, every
milestone newly recorded in `closedMilestones` had state `open`, and
every external call issued is an update-state-to-closed call for one of
those open milestones. -/
theorem claim_C4 (opts : MilestoneProcessorOptions)
    (src : Nat → List Milestone) (s : ProcState) (page : Nat)
    (h : opts.reopenActive = false) :
    ClosedUntouched s ((processMilestones opts src s page).1) :=
  processMilestones_rel opts src ClosedUntouched
    (fun s => closedUntouched_of_eq s s rfl rfl rfl)
    closedUntouched_trans
    (fun _ _ => closedUntouched_of_eq _ _ rfl rfl rfl)
    (triageMilestone_closedUntouched opts h) s page

/-- Witness for C4 at `plainOpts` over the one-page source. -/
theorem claim_C4_witness :
    plainOpts.reopenActive = false ∧
    ClosedUntouched initState
      ((processMilestones plainOpts onePageSrc initState 1).1) :=
  ⟨rfl, claim_C4 plainOpts onePageSrc initState 1 rfl⟩

theorem triageMilestone_calls_debug (opts : MilestoneProcessorOptions)
    (h : opts.debugOnly = true) (s : ProcState) (m : Milestone) :
    (triageMilestone opts s m).calls = s.calls := by
  unfold triageMilestone openMilestone closeMilestone
  simp only [h, if_true]
  repeat' split
  all_goals rfl

/-- C6: under `debugOnly`, `closeMilestone` and `openMilestone` still
append the milestone to their respective list but change nothing else
(in particular they issue no external call), and a whole run of
`processMilestones` issues zero state-changing calls. -/
theorem claim_C6 (opts : MilestoneProcessorOptions) (m : Milestone)
    (s : ProcState) (h : opts.debugOnly = true) :
    closeMilestone opts m s =
      { s with closedMilestones := s.closedMilestones ++ [m] } ∧
    openMilestone opts m s =
      { s with reopenedMilestones := s.reopenedMilestones ++ [m] } ∧
    ∀ (src : Nat → List Milestone) (page : Nat),
      ((processMilestones opts src s page).1).calls = s.calls := by
  refine ⟨?_, ?_, ?_⟩
  · rw [closeMilestone_eq]; simp [h]
  · rw [openMilestone_eq]; simp [h]
  · intro src page
    exact processMilestones_rel opts src (fun a b => b.calls = a.calls)
      (fun _ => rfl) (fun _ _ _ hab hbc => hbc.trans hab) (fun _ _ => rfl)
      (fun s m => triageMilestone_calls_debug opts h s m) s page

/-- Witness for C6 at `debugOpts` and `staleOpenMilestone`. -/
theorem claim_C6_witness :
    debugOpts.debugOnly = true ∧
    (closeMilestone debugOpts staleOpenMilestone initState =
      { initState with closedMilestones :=
          initState.closedMilestones ++ [staleOpenMilestone] } ∧
    openMilestone debugOpts staleOpenMilestone initState =
      { initState with reopenedMilestones :=
          initState.reopenedMilestones ++ [staleOpenMilestone] } ∧
    ∀ (src : Nat → List Milestone) (page : Nat),
      ((processMilestones debugOpts src initState page).1).calls =
        initState.calls) :=
  ⟨rfl, claim_C6 debugOpts staleOpenMilestone initState rfl⟩

/-- C10: the `staleIssues` and `closedIssues` lists are never appended to:
they are empty at construction and `processMilestones` preserves them for
every source, every page and every setting of the option flags, so they
are still empty when a run from the initial state completes. -/
theorem claim_C10 :
    initState.staleIssues = [] ∧ initState.closedIssues = [] ∧
    (∀ (opts : MilestoneProcessorOptions) (src : Nat → List Milestone)
        (s : ProcState) (page : Nat),
      ((processMilestones opts src s page).1).staleIssues = s.staleIssues ∧
      ((processMilestones opts src s page).1).closedIssues = s.closedIssues) ∧
    (∀ (opts : MilestoneProcessorOptions) (src : Nat → List Milestone)
        (page : Nat),
      ((processMilestones opts src initState page).1).staleIssues = [] ∧
      ((processMilestones opts src initState page).1).closedIssues = []) := by
  have key : ∀ (opts : MilestoneProcessorOptions)
      (src : Nat → List Milestone) (s : ProcState) (page : Nat),
      ((processMilestones opts src s page).1).staleIssues = s.staleIssues ∧
      ((processMilestones opts src s page).1).closedIssues = s.closedIssues :=
    fun opts src s page =>
      processMilestones_rel opts src
        (fun a b => b.staleIssues = a.staleIssues ∧
          b.closedIssues = a.closedIssues)
        (fun _ => ⟨rfl, rfl⟩)
        (fun _ _ _ hab hbc => ⟨hbc.1.trans hab.1, hbc.2.trans hab.2⟩)
        (fun _ _ => ⟨rfl, rfl⟩)
        (fun s m => ⟨(triageMilestone_frame opts s m).2.2.1,
          (triageMilestone_frame opts s m).2.2.2⟩) s page
  exact ⟨rfl, rfl, key, fun opts src page =>
    ⟨(key opts src initState page).1, (key opts src initState page).2⟩⟩

end MilestoneCloser

namespace MilestoneCloser

theorem processMilestones_fetchesOf (opts : MilestoneProcessorOptions)
    (src : Nat → List Milestone) :
    ∀ (s : ProcState) (page : Nat),
      ((processMilestones opts src s page).1).operationsLeft =
        s.operationsLeft - ((fetchesOf opts src s page).length : Int) := by
  intro s page
  induction s, page using fetchesOf.induct opts src with
  | case1 s page h =>
      unfold processMilestones fetchesOf
      rw [if_pos h, if_pos h]
      simp
  | case2 s page h1 ms h2 =>
      have h2' : (src page).length ≤ 0 ∧ opts.reopenActive = false := h2
      unfold processMilestones fetchesOf
      rw [if_neg h1, if_pos h2', if_neg h1, if_pos h2']
      simp
  | case3 s page h1 ms s1 h2 h3 =>
      have h2' : ¬((src page).length ≤ 0 ∧ opts.reopenActive = false) := h2
      have h3' : (opts.relatedOnly = true ∨ opts.relatedActive = true) ∧
          s.operationsLeft - 1 < OPERATIONS_PER_RUN - 1 ∧
          opts.reopenActive = false := h3
      unfold processMilestones fetchesOf
      rw [if_neg h1, if_neg h2', if_pos h3', if_neg h1, if_neg h2',
        if_pos h3']
      simp
  | case4 s page h1 ms s1 h2 h3 h4 =>
      have h2' : ¬((src page).length ≤ 0 ∧ opts.reopenActive = false) := h2
      have h3' : ¬((opts.relatedOnly = true ∨ opts.relatedActive = true) ∧
          s.operationsLeft - 1 < OPERATIONS_PER_RUN - 1 ∧
          opts.reopenActive = false) := h3
      have h4' : (opts.relatedOnly = true ∨ opts.relatedActive = true) ∧
          s.relatedNotFound = true ∧ opts.reopenActive = false := h4
      unfold processMilestones fetchesOf
      rw [if_neg h1, if_neg h2', if_neg h3', if_pos h4', if_neg h1,
        if_neg h2', if_neg h3', if_pos h4']
      simp
  | case5 s page h1 ms s1 h2 h3 h4 ih =>
      have h2' : ¬((src page).length ≤ 0 ∧ opts.reopenActive = false) := h2
      have h3' : ¬((opts.relatedOnly = true ∨ opts.relatedActive = true) ∧
          s.operationsLeft - 1 < OPERATIONS_PER_RUN - 1 ∧
          opts.reopenActive = false) := h3
      have h4' : ¬((opts.relatedOnly = true ∨ opts.relatedActive = true) ∧
          s.relatedNotFound = true ∧ opts.reopenActive = false) := h4
      have ih' : ((processMilestones opts src
            (processPage opts (src page)
              { s with operationsLeft := s.operationsLeft - 1 })
            (page + 1)).1).operationsLeft =
          (processPage opts (src page)
            { s with operationsLeft := s.operationsLeft - 1 }).operationsLeft
          - ((fetchesOf opts src
              (processPage opts (src page)
                { s with operationsLeft := s.operationsLeft - 1 })
              (page + 1)).length : Int) := ih
      unfold processMilestones fetchesOf
      rw [if_neg h1, if_neg h2', if_neg h3', if_neg h4', if_neg h1,
        if_neg h2', if_neg h3', if_neg h4']
      rw [ih', processPage_operationsLeft]
      simp only [List.length_cons]
      push_cast
      ring

theorem processMilestones_exhausted (opts : MilestoneProcessorOptions)
    (src : Nat → List Milestone) (s : ProcState) (page : Nat)
    (h : s.operationsLeft ≤ 0) :
    processMilestones opts src s page = (s, 0) ∧
    fetchesOf opts src s page = [] := by
  unfold processMilestones fetchesOf
  rw [if_pos h, if_pos h]
  exact ⟨rfl, rfl⟩

theorem fetchesOf_length_le (opts : MilestoneProcessorOptions)
    (src : Nat → List Milestone) :
    ∀ (s : ProcState) (page : Nat),
      (fetchesOf opts src s page).length ≤ s.operationsLeft.toNat := by
  intro s page
  induction s, page using fetchesOf.induct opts src with
  | case1 s page h =>
      unfold fetchesOf
      rw [if_pos h]
      simp
  | case2 s page h1 ms h2 =>
      have h2' : (src page).length ≤ 0 ∧ opts.reopenActive = false := h2
      unfold fetchesOf
      rw [if_neg h1, if_pos h2']
      simp only [List.length_singleton]
      omega
  | case3 s page h1 ms s1 h2 h3 =>
      have h2' : ¬((src page).length ≤ 0 ∧ opts.reopenActive = false) := h2
      have h3' : (opts.relatedOnly = true ∨ opts.relatedActive = true) ∧
          s.operationsLeft - 1 < OPERATIONS_PER_RUN - 1 ∧
          opts.reopenActive = false := h3
      unfold fetchesOf
      rw [if_neg h1, if_neg h2', if_pos h3']
      simp only [List.length_singleton]
      omega
  | case4 s page h1 ms s1 h2 h3 h4 =>
      have h2' : ¬((src page).length ≤ 0 ∧ opts.reopenActive = false) := h2
      have h3' : ¬((opts.relatedOnly = true ∨ opts.relatedActive = true) ∧
          s.operationsLeft - 1 < OPERATIONS_PER_RUN - 1 ∧
          opts.reopenActive = false) := h3
      have h4' : (opts.relatedOnly = true ∨ opts.relatedActive = true) ∧
          s.relatedNotFound = true ∧ opts.reopenActive = false := h4
      unfold fetchesOf
      rw [if_neg h1, if_neg h2', if_neg h3', if_pos h4']
      simp only [List.length_singleton]
      omega
  | case5 s page h1 ms s1 h2 h3 h4 ih =>
      have h2' : ¬((src page).length ≤ 0 ∧ opts.reopenActive = false) := h2
      have h3' : ¬((opts.relatedOnly = true ∨ opts.relatedActive = true) ∧
          s.operationsLeft - 1 < OPERATIONS_PER_RUN - 1 ∧
          opts.reopenActive = false) := h3
      have h4' : ¬((opts.relatedOnly = true ∨ opts.relatedActive = true) ∧
          s.relatedNotFound = true ∧ opts.reopenActive = false) := h4
      have ih' : (fetchesOf opts src
            (processPage opts (src page)
              { s with operationsLeft := s.operationsLeft - 1 })
            (page + 1)).length ≤
          (processPage opts (src page)
            { s with operationsLeft :=
              s.operationsLeft - 1 }).operationsLeft.toNat := ih
      rw [processPage_operationsLeft] at ih'
      unfold fetchesOf
      rw [if_neg h1, if_neg h2', if_neg h3', if_neg h4']
      simp only [List.length_cons]
      dsimp only at ih'
      omega

/-- C5: each page fetch consumes exactly one unit of the operations
budget — the final `operationsLeft` is the initial budget minus the
number of fetches, independent of page contents; the budget starts at
`OPERATIONS_PER_RUN = 100`; an exhausted budget means no fetch at all and
return value 0; and a run can never make more fetches than the budget
allows, hence at most 100 from the initial state. -/
theorem claim_C5 (opts : MilestoneProcessorOptions)
    (src : Nat → List Milestone) (s : ProcState) (page : Nat) :
    OPERATIONS_PER_RUN = 100 ∧
    initState.operationsLeft = OPERATIONS_PER_RUN ∧
    ((processMilestones opts src s page).1).operationsLeft =
      s.operationsLeft - ((fetchesOf opts src s page).length : Int) ∧
    (s.operationsLeft ≤ 0 →
      processMilestones opts src s page = (s, 0) ∧
      fetchesOf opts src s page = []) ∧
    (fetchesOf opts src s page).length ≤ s.operationsLeft.toNat ∧
    (fetchesOf opts src initState page).length ≤ 100 :=
  ⟨rfl, rfl, processMilestones_fetchesOf opts src s page,
    processMilestones_exhausted opts src s page,
    fetchesOf_length_le opts src s page,
    le_trans (fetchesOf_length_le opts src initState page) (by decide)⟩

/-- Witness for C5: with the budget already at zero, no fetch occurs and
the method returns 0. -/
theorem claim_C5_witness :
    ({ initState with operationsLeft := 0 } : ProcState).operationsLeft ≤ 0 ∧
    (processMilestones plainOpts onePageSrc
        { initState with operationsLeft := 0 } 1 =
      ({ initState with operationsLeft := 0 }, 0) ∧
    fetchesOf plainOpts onePageSrc
        { initState with operationsLeft := 0 } 1 = []) :=
  ⟨by decide,
    (claim_C5 plainOpts onePageSrc
      { initState with operationsLeft := 0 } 1).2.2.2.1 (by decide)⟩

end MilestoneCloser

namespace MilestoneCloser

theorem processMilestones_reopen_ret (opts : MilestoneProcessorOptions)
    (src : Nat → List Milestone) (h : opts.reopenActive = true) :
    ∀ (s : ProcState) (page : Nat),
      (processMilestones opts src s page).2 = 0 := by
  intro s page
  induction s, page using processMilestones.induct opts src with
  | case1 s page h0 =>
      unfold processMilestones
      rw [if_pos h0]
  | case2 s page h1 ms h2 =>
      obtain ⟨-, hre⟩ := h2
      rw [h] at hre
      cases hre
  | case3 s page h1 ms s1 h2 h3 =>
      obtain ⟨-, -, hre⟩ := h3
      rw [h] at hre
      cases hre
  | case4 s page h1 ms s1 h2 h3 h4 =>
      obtain ⟨-, -, hre⟩ := h4
      rw [h] at hre
      cases hre
  | case5 s page h1 ms s1 h2 h3 h4 ih =>
      have h2' : ¬((src page).length ≤ 0 ∧ opts.reopenActive = false) := h2
      have h3' : ¬((opts.relatedOnly = true ∨ opts.relatedActive = true) ∧
          s.operationsLeft - 1 < OPERATIONS_PER_RUN - 1 ∧
          opts.reopenActive = false) := h3
      have h4' : ¬((opts.relatedOnly = true ∨ opts.relatedActive = true) ∧
          s.relatedNotFound = true ∧ opts.reopenActive = false) := h4
      unfold processMilestones
      rw [if_neg h1, if_neg h2', if_neg h3', if_neg h4']
      exact ih

theorem fetchesOf_reopen (opts : MilestoneProcessorOptions)
    (src : Nat → List Milestone) (h : opts.reopenActive = true) :
    ∀ (s : ProcState) (page : Nat),
      fetchesOf opts src s page =
        List.range' page s.operationsLeft.toNat := by
  intro s page
  induction s, page using fetchesOf.induct opts src with
  | case1 s page h0 =>
      have hz : s.operationsLeft.toNat = 0 := by omega
      unfold fetchesOf
      rw [if_pos h0, hz]
      rfl
  | case2 s page h1 ms h2 =>
      obtain ⟨-, hre⟩ := h2
      rw [h] at hre
      cases hre
  | case3 s page h1 ms s1 h2 h3 =>
      obtain ⟨-, -, hre⟩ := h3
      rw [h] at hre
      cases hre
  | case4 s page h1 ms s1 h2 h3 h4 =>
      obtain ⟨-, -, hre⟩ := h4
      rw [h] at hre
      cases hre
  | case5 s page h1 ms s1 h2 h3 h4 ih =>
      have h2' : ¬((src page).length ≤ 0 ∧ opts.reopenActive = false) := h2
      have h3' : ¬((opts.relatedOnly = true ∨ opts.relatedActive = true) ∧
          s.operationsLeft - 1 < OPERATIONS_PER_RUN - 1 ∧
          opts.reopenActive = false) := h3
      have h4' : ¬((opts.relatedOnly = true ∨ opts.relatedActive = true) ∧
          s.relatedNotFound = true ∧ opts.reopenActive = false) := h4
      have ih' : fetchesOf opts src
            (processPage opts (src page)
              { s with operationsLeft := s.operationsLeft - 1 })
            (page + 1) =
          List.range' (page + 1)
            (processPage opts (src page)
              { s with operationsLeft :=
                s.operationsLeft - 1 }).operationsLeft.toNat := ih
      rw [processPage_operationsLeft] at ih'
      dsimp only at ih'
      have hn : s.operationsLeft.toNat = (s.operationsLeft - 1).toNat + 1 := by
        omega
      unfold fetchesOf
      rw [if_neg h1, if_neg h2', if_neg h3', if_neg h4', ih', hn,
        List.range'_succ]

/-- C8: when `reopenActive` is true, none of the early-exit conditions
other than budget exhaustion can fire, for any milestone source — even
one returning only empty pages — so the run fetches consecutive pages
until the budget reaches zero and the method returns 0. -/
theorem claim_C8 (opts : MilestoneProcessorOptions)
    (src : Nat → List Milestone) (s : ProcState) (page : Nat)
    (h : opts.reopenActive = true) :
    (processMilestones opts src s page).2 = 0 ∧
    fetchesOf opts src s page = List.range' page s.operationsLeft.toNat ∧
    (fetchesOf opts src s page).length = s.operationsLeft.toNat := by
  refine ⟨processMilestones_reopen_ret opts src h s page,
    fetchesOf_reopen opts src h s page, ?_⟩
  rw [fetchesOf_reopen opts src h s page, List.length_range']

/-- Witness for C8: with `reopenActive` and an all-empty source, a run
with budget 2 fetches pages 1 and 2 and returns 0. -/
theorem claim_C8_witness :
    reopenOpts.reopenActive = true ∧
    ((processMilestones reopenOpts (fun _ => [])
        { initState with operationsLeft := 2 } 1).2 = 0 ∧
      fetchesOf reopenOpts (fun _ => [])
          { initState with operationsLeft := 2 } 1 =
        List.range' 1
          ({ initState with operationsLeft := 2 } :
            ProcState).operationsLeft.toNat ∧
      (fetchesOf reopenOpts (fun _ => [])
          { initState with operationsLeft := 2 } 1).length =
        ({ initState with operationsLeft := 2 } :
          ProcState).operationsLeft.toNat) :=
  ⟨rfl, claim_C8 reopenOpts (fun _ => [])
    { initState with operationsLeft := 2 } 1 rfl⟩

end MilestoneCloser

namespace MilestoneCloser

/-- C7: in related mode with `reopenActive` false, a run started with the
full budget triages milestones from at most the first fetched page: if
page 1 is empty the run ends immediately after it, and otherwise the
final state is exactly the result of processing page 1 (with two budget
units consumed for the two fetches), so no milestone of page 2 or any
later page is ever processed. -/
theorem claim_C7 (opts : MilestoneProcessorOptions)
    (src : Nat → List Milestone) (s : ProcState)
    (h1 : opts.relatedOnly = true ∨ opts.relatedActive = true)
    (h2 : opts.reopenActive = false)
    (h3 : s.operationsLeft = OPERATIONS_PER_RUN)
    (h4 : s.relatedNotFound = false) :
    (processMilestones opts src s 1).1 =
      if (src 1).length = 0 then
        { s with operationsLeft := OPERATIONS_PER_RUN - 1 }
      else
        { processPage opts (src 1)
            { s with operationsLeft := OPERATIONS_PER_RUN - 1 } with
          operationsLeft := OPERATIONS_PER_RUN - 2 } := by
  have hpos : ¬ s.operationsLeft ≤ 0 := by
    rw [h3]; decide
  by_cases hsrc : (src 1).length = 0
  · rw [if_pos hsrc]
    unfold processMilestones
    rw [if_neg hpos, if_pos ⟨Nat.le_of_eq hsrc, h2⟩, h3]
  · rw [if_neg hsrc]
    unfold processMilestones
    rw [if_neg hpos]
    have g1 : ¬((src 1).length ≤ 0 ∧ opts.reopenActive = false) := by
      rintro ⟨hl, -⟩
      exact hsrc (Nat.le_zero.mp hl)
    rw [if_neg g1]
    have g2 : ¬((opts.relatedOnly = true ∨ opts.relatedActive = true) ∧
        ({ s with operationsLeft := s.operationsLeft - 1 } :
          ProcState).operationsLeft < OPERATIONS_PER_RUN - 1 ∧
        opts.reopenActive = false) := by
      rintro ⟨-, hlt, -⟩
      dsimp only at hlt
      rw [h3] at hlt
      exact lt_irrefl _ hlt
    rw [if_neg g2]
    have g3 : ¬((opts.relatedOnly = true ∨ opts.relatedActive = true) ∧
        ({ s with operationsLeft := s.operationsLeft - 1 } :
          ProcState).relatedNotFound = true ∧
        opts.reopenActive = false) := by
      rintro ⟨-, hrf, -⟩
      dsimp only at hrf
      rw [h4] at hrf
      cases hrf
    rw [if_neg g3]
    have hoL2 : (processPage opts (src 1)
        { s with operationsLeft := s.operationsLeft - 1 }).operationsLeft =
        s.operationsLeft - 1 := processPage_operationsLeft opts _ _
    have hrf2 : (processPage opts (src 1)
        { s with operationsLeft := s.operationsLeft - 1 }).relatedNotFound =
        s.relatedNotFound := processPage_relatedNotFound opts _ _
    have hpos2 : ¬ (processPage opts (src 1)
        { s with operationsLeft := s.operationsLeft - 1 }).operationsLeft
        ≤ 0 := by
      rw [hoL2, h3]; decide
    unfold processMilestones
    rw [if_neg hpos2]
    by_cases hsrc2 : (src 2).length ≤ 0
    · rw [if_pos ⟨hsrc2, h2⟩, hoL2, h3]
      dsimp only
      congr 1
    · have g1' : ¬((src 2).length ≤ 0 ∧ opts.reopenActive = false) := by
        rintro ⟨hl, -⟩
        exact hsrc2 hl
      rw [if_neg g1']
      have g2' : (opts.relatedOnly = true ∨ opts.relatedActive = true) ∧
          ({ processPage opts (src 1)
              { s with operationsLeft := s.operationsLeft - 1 } with
            operationsLeft := (processPage opts (src 1)
              { s with operationsLeft := s.operationsLeft - 1 }).operationsLeft
              - 1 } : ProcState).operationsLeft < OPERATIONS_PER_RUN - 1 ∧
          opts.reopenActive = false := by
        refine ⟨h1, ?_, h2⟩
        dsimp only
        rw [hoL2, h3]
        decide
      rw [if_pos g2', hoL2, h3]
      dsimp only
      congr 1

end MilestoneCloser

namespace MilestoneCloser

/-- Witness for C7 at `relatedOpts` over the one-page source from the
initial state. -/
theorem claim_C7_witness :
    ((relatedOpts.relatedOnly = true ∨ relatedOpts.relatedActive = true) ∧
      relatedOpts.reopenActive = false ∧
      initState.operationsLeft = OPERATIONS_PER_RUN ∧
      initState.relatedNotFound = false) ∧
    (processMilestones relatedOpts onePageSrc initState 1).1 =
      (if (onePageSrc 1).length = 0 then
        { initState with operationsLeft := OPERATIONS_PER_RUN - 1 }
      else
        { processPage relatedOpts (onePageSrc 1)
            { initState with operationsLeft := OPERATIONS_PER_RUN - 1 } with
          operationsLeft := OPERATIONS_PER_RUN - 2 }) :=
  ⟨⟨Or.inl rfl, rfl, rfl, rfl⟩,
    claim_C7 relatedOpts onePageSrc initState (Or.inl rfl) rfl rfl rfl⟩

theorem nonneg_int_iff (v : JsNumber) :
    (∃ n : ℕ, v = some (n : ℚ)) ↔
      (jsIsInteger v = true ∧ jsLtZero v = false) := by
  cases v with
  | none =>
      constructor
      · rintro ⟨n, hn⟩
        cases hn
      · rintro ⟨hi, -⟩
        cases hi
  | some q =>
      simp only [jsIsInteger, jsLtZero, Option.some.injEq, beq_iff_eq,
        decide_eq_false_iff_not, not_lt]
      constructor
      · rintro ⟨n, rfl⟩
        exact ⟨Rat.den_natCast n, by positivity⟩
      · rintro ⟨hden, hnn⟩
        have hq : (q.num : ℚ) = q := (Rat.den_eq_one_iff q).mp hden
        have hnum : 0 ≤ q.num := Rat.num_nonneg.mpr hnn
        refine ⟨q.num.toNat, ?_⟩
        have hcast : ((q.num.toNat : ℕ) : ℚ) = ((q.num.toNat : ℤ) : ℚ) := by
          push_cast
          rfl
        rw [hcast, Int.toNat_of_nonneg hnum, hq]

/-- C9: startup validation fails exactly when the `min-issues` value is
not a non-negative integer; on failure `runMain` aborts with the
validation error before any processing, and for every non-negative
integer value validation succeeds and the processor is invoked on the
validated arguments. -/
theorem claim_C9 (tok : String) (dbg : Bool) (v : JsNumber)
    (src : Nat → List Milestone) :
    ((∃ n : ℕ, v = some (n : ℚ)) ↔
      ∃ a, getAndValidateArgs tok dbg v = Except.ok a) ∧
    ((∃ n : ℕ, v = some (n : ℚ)) →
      runMain tok dbg v src = Except.ok
        (processMilestones
          { minimumIssues := minIssuesNat v, relatedOnly := false,
            relatedActive := false, reopenActive := false,
            debugOnly := dbg } src initState 1)) ∧
    ((¬ ∃ n : ℕ, v = some (n : ℚ)) →
      ∃ e, runMain tok dbg v src = Except.error e) := by
  by_cases hv : jsIsInteger v = true ∧ jsLtZero v = false
  · have hok : getAndValidateArgs tok dbg v = Except.ok ⟨tok, dbg, v⟩ := by
      unfold getAndValidateArgs
      rw [if_neg]
      rintro (hni | hlt)
      · exact hni hv.1
      · rw [hv.2] at hlt
        cases hlt
    refine ⟨?_, ?_, ?_⟩
    · exact ⟨fun _ => ⟨_, hok⟩, fun _ => (nonneg_int_iff v).mpr hv⟩
    · intro hn
      unfold runMain
      rw [hok]
    · intro hn
      exact absurd ((nonneg_int_iff v).mpr hv) hn
  · have hcond : ¬ jsIsInteger v = true ∨ jsLtZero v = true := by
      by_cases hi : jsIsInteger v = true
      · by_cases hl : jsLtZero v = true
        · exact Or.inr hl
        · exact absurd ⟨hi, Bool.eq_false_iff.mpr hl⟩ hv
      · exact Or.inl hi
    have he : getAndValidateArgs tok dbg v = Except.error
        "not a valid value for the min-issues input, choose a non-negative integer." := by
      unfold getAndValidateArgs
      rw [if_pos hcond]
    refine ⟨?_, ?_, ?_⟩
    · constructor
      · intro hex
        exact absurd ((nonneg_int_iff v).mp hex) hv
      · rintro ⟨a, ha⟩
        rw [he] at ha
        cases ha
    · intro hex
      exact absurd ((nonneg_int_iff v).mp hex) hv
    · intro hn
      refine
        ⟨"not a valid value for the min-issues input, choose a non-negative integer.",
          ?_⟩
      unfold runMain
      rw [he]

/-- Witness for C9 at the integer value 3: validation succeeds and the
processor is invoked. -/
theorem claim_C9_witness :
    (∃ n : ℕ, (some (3 : ℚ) : JsNumber) = some (n : ℚ)) ∧
    runMain "token" false (some (3 : ℚ)) onePageSrc = Except.ok
      (processMilestones
        { minimumIssues := minIssuesNat (some (3 : ℚ)),
          relatedOnly := false, relatedActive := false,
          reopenActive := false, debugOnly := false }
        onePageSrc initState 1) :=
  ⟨⟨3, by norm_num⟩,
    (claim_C9 "token" false (some (3 : ℚ)) onePageSrc).2.1 ⟨3, by norm_num⟩⟩

end MilestoneCloser
